import Mathlib

/-!
Verification development for the emergency-department patient-flow engine
(`src/mcp`): a shallow embedding of `state.py`, the three services
(`patient_service.py`, `staff_service.py`, `transport_service.py`) and the
controller (`emergency_controller.py`), followed by theorems about the
embedded operations.

Modelling conventions:
* `datetime` timestamps become `Nat` minutes since simulation start;
  `datetime.now()` at startup is taken as minute 0.  Durations computed as
  `(a - b).total_seconds() / 60` become `Int` subtraction so that negative
  waits behave as in the source.
* Python in-place mutation of an object found by `next(...)` becomes
  `updateFirst`: replace the first list element matching the predicate.
* The ordered `dict[str, Patient]` becomes an association list
  `List (String × Patient)`; `dict.get` is first-match lookup and insertion
  appends at the end, matching dict iteration order.
* Functions that `raise`/return `(False, msg)` return an `Except String`
  result paired with the (possibly updated) state, so that "the state is
  unchanged on failure" is expressible.
-/

set_option maxHeartbeats 1000000
set_option maxRecDepth 4000

/-- Enum `Gravite` from `state.py`: patient severity tiers. -/
inductive Gravite
  | ROUGE
  | JAUNE
  | VERT
  | GRIS
deriving DecidableEq

/-- Enum `UniteCible` from `state.py`: possible destination units (the
source member spelled CARDI-O is rendered `CARDIOLOGIE` here). -/
inductive UniteCible
  | CARDIOLOGIE
  | PNEUMO
  | NEURO
  | ORTHO
  | SOINS_CRITIQUES
  | MAISON
deriving DecidableEq

/-- The string value of each `UniteCible` member (Python `str` enum values). -/
def UniteCible.str : UniteCible → String
  | .CARDIOLOGIE => "Cardiologie"
  | .PNEUMO => "Pneumologie"
  | .NEURO => "Neurologie"
  | .ORTHO => "Orthopédie"
  | .SOINS_CRITIQUES => "Soins Critiques"
  | .MAISON => "Maison"

/-- Enum `StatutPatient` from `state.py`: patient status state machine values. -/
inductive StatutPatient
  | ATTENTE_TRIAGE
  | SALLE_ATTENTE
  | EN_TRANSPORT_CONSULTATION
  | EN_CONSULTATION
  | ATTENTE_TRANSPORT_SORTIE
  | EN_TRANSPORT_SORTIE
  | SORTI
deriving DecidableEq

/-- The string value of each `StatutPatient` member. -/
def StatutPatient.str : StatutPatient → String
  | .ATTENTE_TRIAGE => "attente_triage"
  | .SALLE_ATTENTE => "salle_attente"
  | .EN_TRANSPORT_CONSULTATION => "en_transport_consultation"
  | .EN_CONSULTATION => "en_consultation"
  | .ATTENTE_TRANSPORT_SORTIE => "attente_transport_sortie"
  | .EN_TRANSPORT_SORTIE => "en_transport_sortie"
  | .SORTI => "sorti"

/-- Enum `TypeStaff` from `state.py`: staff roles. -/
inductive TypeStaff
  | MEDECIN
  | INFIRMIERE_FIXE
  | INFIRMIERE_MOBILE
  | AIDE_SOIGNANT
deriving DecidableEq

/-- Record `Patient` from `state.py`. -/
structure Patient where
  id : String
  prenom : String
  nom : String
  gravite : Gravite
  symptomes : String
  age : Nat
  antecedents : List String
  arrived_at : Nat
  consultation_end_at : Option Nat
  statut : StatutPatient
  salle_attente_id : Option String
  unite_cible : Option UniteCible
deriving DecidableEq

/-- Method `Patient.temps_attente_minutes`: minutes waited since arrival. -/
def Patient.temps_attente_minutes (p : Patient) (now : Nat) : Int :=
  (now : Int) - (p.arrived_at : Int)

/-- Method `Patient.priorite_queue`: the `(tier, arrival_time)` queue-priority key. -/
def Patient.priorite_queue (p : Patient) (now : Nat) : Nat × Nat :=
  if p.gravite = .ROUGE then (0, p.arrived_at)
  else if p.gravite = .VERT ∧ p.temps_attente_minutes now > 360 then (1, p.arrived_at)
  else if p.gravite = .JAUNE then (2, p.arrived_at)
  else if p.gravite = .VERT then (3, p.arrived_at)
  else (4, p.arrived_at)

/-- Record `SalleAttente` from `state.py`. -/
structure SalleAttente where
  id : String
  capacite : Nat
  patients : List String
  surveillee_par : Option String
  derniere_surveillance : Nat
deriving DecidableEq

/-- Method `SalleAttente.places_disponibles`: free places (can be negative in Python). -/
def SalleAttente.places_disponibles (s : SalleAttente) : Int :=
  (s.capacite : Int) - (s.patients.length : Int)

/-- Method `SalleAttente.est_pleine`. -/
def SalleAttente.est_pleine (s : SalleAttente) : Bool :=
  s.patients.length ≥ s.capacite

/-- Record `Consultation` from `state.py`: the single consultation slot. -/
structure Consultation where
  patient_id : Option String
  debut_consultation : Option Nat
deriving DecidableEq

/-- Method `Consultation.est_libre`. -/
def Consultation.est_libre (c : Consultation) : Bool :=
  c.patient_id = none

/-- Record `Unite` from `state.py`. -/
structure Unite where
  nom : UniteCible
  capacite : Nat
  patients : List String
deriving DecidableEq

/-- Method `Unite.a_de_la_place`. -/
def Unite.a_de_la_place (u : Unite) : Bool :=
  u.patients.length < u.capacite

/-- Record `Staff` from `state.py`. -/
structure Staff where
  id : String
  type : TypeStaff
  disponible : Bool
  localisation : String
  salle_surveillee : Option String
  occupe_depuis : Option Nat
  doit_revenir_avant : Option Nat
  en_transport : Bool
  patient_transporte_id : Option String
  destination_transport : Option String
  fin_transport_prevue : Option Nat
deriving DecidableEq

/-- Method `Staff.peut_partir`: whether the staff member may leave their post. -/
def Staff.peut_partir (s : Staff) (now : Nat) : Bool :=
  if s.type = TypeStaff.INFIRMIERE_FIXE then false
  else if ¬s.disponible ∨ s.en_transport then false
  else match s.occupe_depuis with
    | some t => decide ((now : Int) - (t : Int) ≥ 5)
    | none => true

/-- Record `EmergencyState` from `state.py`: the aggregate root. -/
structure EmergencyState where
  salles_attente : List SalleAttente
  consultation : Consultation
  unites : List Unite
  staff : List Staff
  patients : List (String × Patient)
  current_time : Nat
deriving DecidableEq

/-- Replace the first element satisfying `p` by its image under `f`
(the embedding of mutating the object returned by Python `next(...)`). -/
def updateFirst (p : α → Bool) (f : α → α) : List α → List α
  | [] => []
  | x :: xs => if p x then f x :: xs else x :: updateFirst p f xs

/-- Lookup `PatientService.get_patient` / `state.patients.get(pid)`. -/
def lookupPatient (st : EmergencyState) (pid : String) : Option Patient :=
  (st.patients.find? (fun kv => kv.1 = pid)).map (·.2)

/-- Update the patient stored under `pid` (in-place mutation in the source). -/
def setPatient (st : EmergencyState) (pid : String) (f : Patient → Patient) :
    EmergencyState :=
  { st with patients :=
      updateFirst (fun kv => kv.1 = pid) (fun kv => (kv.1, f kv.2)) st.patients }

/-- Embedding of `next((s for s in state.salles_attente if s.id == rid), None)`. -/
def findSalle (st : EmergencyState) (rid : String) : Option SalleAttente :=
  st.salles_attente.find? (fun s => s.id = rid)

/-- Update the waiting room with the given id. -/
def setSalle (st : EmergencyState) (rid : String) (f : SalleAttente → SalleAttente) :
    EmergencyState :=
  { st with salles_attente := updateFirst (fun s => s.id = rid) f st.salles_attente }

/-- Embedding of `next((s for s in state.staff if s.id == sid), None)`. -/
def findStaffById (st : EmergencyState) (sid : String) : Option Staff :=
  st.staff.find? (fun s => s.id = sid)

/-- Update the staff member with the given id. -/
def setStaff (st : EmergencyState) (sid : String) (f : Staff → Staff) :
    EmergencyState :=
  { st with staff := updateFirst (fun s => s.id = sid) f st.staff }

/-- Method `EmergencyState.get_unite`. -/
def get_unite (st : EmergencyState) (nom : UniteCible) : Option Unite :=
  st.unites.find? (fun u => u.nom = nom)

/-- Update the unit with the given name. -/
def setUnite (st : EmergencyState) (nom : UniteCible) (f : Unite → Unite) :
    EmergencyState :=
  { st with unites := updateFirst (fun u => u.nom = nom) f st.unites }

/-- Python `max(xs, key=f)`: first element with the maximal key. -/
def maxByFirst (f : α → Int) : List α → Option α
  | [] => none
  | x :: xs => some (xs.foldl (fun best y => if f y > f best then y else best) x)

/-- The initial state built by `EmergencyState.__init__` (clock at minute 0). -/
def initState : EmergencyState :=
  { salles_attente := [
      { id := "salle_attente_1", capacite := 5, patients := [],
        surveillee_par := none, derniere_surveillance := 0 },
      { id := "salle_attente_2", capacite := 10, patients := [],
        surveillee_par := none, derniere_surveillance := 0 },
      { id := "salle_attente_3", capacite := 5, patients := [],
        surveillee_par := none, derniere_surveillance := 0 }],
    consultation := { patient_id := none, debut_consultation := none },
    unites := [
      { nom := .SOINS_CRITIQUES, capacite := 5, patients := [] },
      { nom := .CARDIOLOGIE, capacite := 10, patients := [] },
      { nom := .PNEUMO, capacite := 10, patients := [] },
      { nom := .NEURO, capacite := 8, patients := [] },
      { nom := .ORTHO, capacite := 10, patients := [] }],
    staff := [
      { id := "Medecin", type := .MEDECIN, disponible := true,
        localisation := "consultation", salle_surveillee := none,
        occupe_depuis := none, doit_revenir_avant := none, en_transport := false,
        patient_transporte_id := none, destination_transport := none,
        fin_transport_prevue := none },
      { id := "Infirmier(ère) Triage", type := .INFIRMIERE_FIXE, disponible := true,
        localisation := "repos", salle_surveillee := none,
        occupe_depuis := none, doit_revenir_avant := none, en_transport := false,
        patient_transporte_id := none, destination_transport := none,
        fin_transport_prevue := none },
      { id := "Infirmier(ère) B", type := .INFIRMIERE_MOBILE, disponible := true,
        localisation := "repos", salle_surveillee := none,
        occupe_depuis := none, doit_revenir_avant := none, en_transport := false,
        patient_transporte_id := none, destination_transport := none,
        fin_transport_prevue := none },
      { id := "Infirmier(ère) C", type := .INFIRMIERE_MOBILE, disponible := true,
        localisation := "repos", salle_surveillee := none,
        occupe_depuis := none, doit_revenir_avant := none, en_transport := false,
        patient_transporte_id := none, destination_transport := none,
        fin_transport_prevue := none },
      { id := "Aide Soignant(e) A", type := .AIDE_SOIGNANT, disponible := true,
        localisation := "repos", salle_surveillee := none,
        occupe_depuis := none, doit_revenir_avant := none, en_transport := false,
        patient_transporte_id := none, destination_transport := none,
        fin_transport_prevue := none },
      { id := "Aide Soignant(e) B", type := .AIDE_SOIGNANT, disponible := true,
        localisation := "repos", salle_surveillee := none,
        occupe_depuis := none, doit_revenir_avant := none, en_transport := false,
        patient_transporte_id := none, destination_transport := none,
        fin_transport_prevue := none }],
    patients := [],
    current_time := 0 }

/-! ## PatientService (`patient_service.py`) -/

/-- Service method `PatientService.ajouter_patient`: intake; fails if the id already exists. -/
def ajouter_patient (p : Patient) (st : EmergencyState) :
    Except String Unit × EmergencyState :=
  if (st.patients.find? (fun kv => kv.1 = p.id)).isSome then
    (Except.error ("Patient ID " ++ p.id ++ " déjà existant"), st)
  else
    let p2 := { p with arrived_at := st.current_time,
                       statut := StatutPatient.ATTENTE_TRIAGE }
    (Except.ok (), { st with patients := st.patients ++ [(p.id, p2)] })

/-- Service method `PatientService.assigner_salle_attente`: waiting-room admission.
Auto-selects the non-full room with the most free places (first maximum) when
no room is given; validates the explicit room exists and is not full.
The source performs no check of the patient's current status. -/
def assigner_salle_attente (pid : String) (room_id : Option String)
    (st : EmergencyState) : Except String String × EmergencyState :=
  match lookupPatient st pid with
  | none => (Except.error ("Patient " ++ pid ++ " introuvable"), st)
  | some _ =>
    let chosen : Except String String :=
      match room_id with
      | some r => Except.ok r
      | none =>
        let dispo := st.salles_attente.filter (fun s => ¬s.est_pleine)
        match maxByFirst SalleAttente.places_disponibles dispo with
        | none => Except.error "Toutes les salles sont pleines"
        | some s => Except.ok s.id
    match chosen with
    | Except.error e => (Except.error e, st)
    | Except.ok rid =>
      match findSalle st rid with
      | none => (Except.error ("Salle " ++ rid ++ " introuvable"), st)
      | some salle =>
        if salle.est_pleine then
          (Except.error ("Salle " ++ rid ++ " pleine"), st)
        else
          let st1 := setSalle st rid
            (fun s => { s with patients := s.patients ++ [pid] })
          let st2 := setPatient st1 pid
            (fun p => { p with statut := StatutPatient.SALLE_ATTENTE,
                               salle_attente_id := some rid })
          (Except.ok rid, st2)

/-- Service method `PatientService.sortir_patient`: manual discharge override. -/
def sortir_patient (pid : String) (st : EmergencyState) :
    Except String Unit × EmergencyState :=
  match lookupPatient st pid with
  | none => (Except.error ("Patient " ++ pid ++ " introuvable"), st)
  | some _ => (Except.ok (), setPatient st pid
      (fun p => { p with statut := StatutPatient.SORTI }))

/-- Service method `PatientService._is_valid_transition`: the explicit transition table. -/
def isValidTransition : StatutPatient → StatutPatient → Bool
  | .ATTENTE_TRIAGE, .SALLE_ATTENTE => true
  | .SALLE_ATTENTE, .EN_TRANSPORT_CONSULTATION => true
  | .EN_TRANSPORT_CONSULTATION, .EN_CONSULTATION => true
  | .EN_CONSULTATION, .ATTENTE_TRANSPORT_SORTIE => true
  | .EN_CONSULTATION, .SORTI => true
  | .ATTENTE_TRANSPORT_SORTIE, .EN_TRANSPORT_SORTIE => true
  | .ATTENTE_TRANSPORT_SORTIE, .SALLE_ATTENTE => true
  | .EN_TRANSPORT_SORTIE, .SORTI => true
  | _, _ => false

/-- Service method `PatientService.update_status`: status change guarded by the
transition table; raises (here: returns an error, state unchanged) on an
unknown patient or an invalid transition. -/
def update_status (pid : String) (new_status : StatutPatient)
    (st : EmergencyState) : Except String Unit × EmergencyState :=
  match lookupPatient st pid with
  | none => (Except.error ("Patient " ++ pid ++ " introuvable"), st)
  | some p =>
    if isValidTransition p.statut new_status then
      (Except.ok (), setPatient st pid (fun q => { q with statut := new_status }))
    else
      (Except.error ("Transition invalide : " ++ p.statut.str ++ " → " ++
        new_status.str), st)

/-! ## StaffService (`staff_service.py`) -/

/-- Service method `StaffService.find_available_staff`: filter by role, optionally exclude
staff in transit, and require the may-leave predicate. -/
def find_available_staff (staff_type : TypeStaff) (exclude_in_transport : Bool)
    (st : EmergencyState) : List Staff :=
  st.staff.filter (fun s =>
    s.type = staff_type ∧
    ¬(exclude_in_transport ∧ s.en_transport) ∧
    s.peut_partir st.current_time)

/-- Service method `StaffService.assigner_surveillance`: attach a `MobileNurse`/`Aide` to a
room, releasing any previously supervised room first. -/
def assigner_surveillance (staff_id room_id : String) (st : EmergencyState) :
    Except String Unit × EmergencyState :=
  match findStaffById st staff_id with
  | none => (Except.error ("Staff " ++ staff_id ++ " introuvable"), st)
  | some staff =>
    if ¬(staff.type = TypeStaff.INFIRMIERE_MOBILE ∨
         staff.type = TypeStaff.AIDE_SOIGNANT) then
      (Except.error "Staff invalide pour surveillance", st)
    else if ¬staff.peut_partir st.current_time then
      (Except.error "Staff non disponible", st)
    else
      match findSalle st room_id with
      | none => (Except.error "Salle introuvable", st)
      | some _ =>
        let st1 := match staff.salle_surveillee with
          | some old => setSalle st old (fun s => { s with surveillee_par := none })
          | none => st
        let st2 := setStaff st1 staff_id (fun s =>
          { s with localisation := room_id, salle_surveillee := some room_id,
                   occupe_depuis := some st.current_time })
        let st3 := setSalle st2 room_id (fun s =>
          { s with surveillee_par := some staff_id,
                   derniere_surveillance := st.current_time })
        (Except.ok (), st3)

/-- The idle-staff filter used by `verifier_et_gerer_surveillance`:
mobile role, available, not in transit, located at the idle pool. -/
def surveillance_staff_dispo (st : EmergencyState) : List Staff :=
  st.staff.filter (fun s =>
    (s.type = TypeStaff.INFIRMIERE_MOBILE ∨ s.type = TypeStaff.AIDE_SOIGNANT) ∧
    s.disponible ∧ ¬s.en_transport ∧ s.localisation = "repos")

/-- Loop body of `StaffService.verifier_et_gerer_surveillance`.  The source
calls `self.assign_room_surveillance(...)`, a method that does not exist
anywhere in the repository (the defined method is `assigner_surveillance`),
so the first room that has patients, no supervisor and an idle candidate
raises an uncaught `AttributeError` (the surrounding handler only catches
`ValueError`); rooms with no candidate are skipped without action. -/
def verifierLoop (st : EmergencyState) (acc : List String) :
    List SalleAttente → Except String (List String)
  | [] => Except.ok acc.reverse
  | salle :: rest =>
    if salle.patients.length > 0 ∧ salle.surveillee_par = none then
      if (surveillance_staff_dispo st).length > 0 then
        Except.error
          "AttributeError: StaffService object has no attribute assign_room_surveillance"
      else verifierLoop st acc rest
    else verifierLoop st acc rest

/-- Service method `StaffService.verifier_et_gerer_surveillance`: auto-cover of
unsupervised rooms (see `verifierLoop` for the uncaught `AttributeError`). -/
def verifier_et_gerer_surveillance (st : EmergencyState) :
    Except String (List String) × EmergencyState :=
  (verifierLoop st [] st.salles_attente, st)

/-- The field updates performed by `StaffService.release_staff` on the found
staff member (note: `salle_surveillee` itself is not cleared). -/
def releaseFields (s : Staff) : Staff :=
  { s with disponible := true, en_transport := false,
           patient_transporte_id := none, destination_transport := none,
           fin_transport_prevue := none, occupe_depuis := none,
           doit_revenir_avant := none,
           localisation := match s.salle_surveillee with
             | some r => r
             | none => "repos" }

/-- Service method `StaffService.release_staff`: return a staff member to the idle pool
(no-op when the id is unknown). -/
def release_staff (sid : String) (st : EmergencyState) : EmergencyState :=
  match findStaffById st sid with
  | none => st
  | some _ => setStaff st sid releaseFields

/-! ## TransportService (`transport_service.py`) -/

/-- Constant `TransportService.DUREE_TRANSPORT_CONSULTATION`. -/
def DUREE_TRANSPORT_CONSULTATION : Nat := 5

/-- Constant `TransportService.DUREE_TRANSPORT_UNITE_ROUGE`. -/
def DUREE_TRANSPORT_UNITE_ROUGE : Nat := 5

/-- Constant `TransportService.DUREE_TRANSPORT_UNITE_AUTRES`. -/
def DUREE_TRANSPORT_UNITE_AUTRES : Nat := 45

/-- Service method `TransportService.demarrer_transport_consultation`. -/
def demarrer_transport_consultation (pid sid : String) (st : EmergencyState) :
    Except String String × EmergencyState :=
  match lookupPatient st pid, findStaffById st sid with
  | none, _ => (Except.error "Patient ou Staff introuvable", st)
  | some _, none => (Except.error "Patient ou Staff introuvable", st)
  | some patient, some staff =>
    if ¬st.consultation.est_libre then
      (Except.error "Consultation occupée", st)
    else if ¬staff.peut_partir st.current_time then
      (Except.error "Staff non disponible", st)
    else
      let st1 := match patient.salle_attente_id with
        | some rid => setSalle st rid
            (fun s => { s with patients := s.patients.erase pid })
        | none => st
      let st2 := setPatient st1 pid (fun p =>
        { p with statut := StatutPatient.EN_TRANSPORT_CONSULTATION,
                 salle_attente_id := none })
      let st3 := { st2 with consultation :=
        { st2.consultation with patient_id := some pid } }
      let fin := st.current_time + DUREE_TRANSPORT_CONSULTATION
      let st4 := setStaff st3 sid (fun s =>
        { s with en_transport := true, patient_transporte_id := some pid,
                 destination_transport := some "consultation",
                 fin_transport_prevue := some fin, disponible := false })
      (Except.ok ("Arrivée : minute " ++ toString fin), st4)

/-- Service method `TransportService.finaliser_transport_consultation`. -/
def finaliser_transport_consultation (pid : String) (st : EmergencyState) :
    Except String String × EmergencyState :=
  match lookupPatient st pid with
  | none => (Except.error "Patient pas en transport", st)
  | some patient =>
    if ¬(patient.statut = StatutPatient.EN_TRANSPORT_CONSULTATION) then
      (Except.error "Patient pas en transport", st)
    else
      let st1 := match st.staff.find?
          (fun s => s.patient_transporte_id = some pid) with
        | some t => release_staff t.id st
        | none => st
      let st2 := setPatient st1 pid (fun p =>
        { p with statut := StatutPatient.EN_CONSULTATION })
      let st3 := { st2 with consultation :=
        { patient_id := some pid, debut_consultation := some st.current_time } }
      (Except.ok "Consultation démarrée", st3)

/-- Service method `TransportService.terminer_consultation`. -/
def terminer_consultation (pid : String) (unite_cible : UniteCible)
    (st : EmergencyState) : Except String String × EmergencyState :=
  match lookupPatient st pid with
  | none => (Except.error "Patient pas en consultation", st)
  | some patient =>
    if ¬(patient.statut = StatutPatient.EN_CONSULTATION) then
      (Except.error "Patient pas en consultation", st)
    else if patient.gravite = Gravite.ROUGE ∧ unite_cible = UniteCible.MAISON then
      (Except.error "Incohérence : ROUGE ne peut pas sortir", st)
    else
      let st1 := setPatient st pid (fun p =>
        { p with unite_cible := some unite_cible,
                 consultation_end_at := some st.current_time,
                 statut := if unite_cible = UniteCible.MAISON then
                     StatutPatient.SORTI
                   else StatutPatient.ATTENTE_TRANSPORT_SORTIE })
      let st2 := { st1 with consultation :=
        { st1.consultation with patient_id := none } }
      (Except.ok ("Destination : " ++ unite_cible.str), st2)

/-- Service method `TransportService.retourner_patient_salle_attente` (the rescue path).
Note: with an explicit `room_id` the source only checks that the room
exists; it performs no `est_pleine` check before appending. -/
def retourner_patient_salle_attente (pid sid : String) (room_id : Option String)
    (st : EmergencyState) : Except String String × EmergencyState :=
  match lookupPatient st pid with
  | none => (Except.error "Patient non prêt pour retour", st)
  | some patient =>
    if ¬(patient.statut = StatutPatient.ATTENTE_TRANSPORT_SORTIE) then
      (Except.error "Patient non prêt pour retour", st)
    else
      let chosen : Except String String :=
        match room_id with
        | some r => Except.ok r
        | none =>
          let dispo := st.salles_attente.filter (fun s => ¬s.est_pleine)
          match maxByFirst SalleAttente.places_disponibles dispo with
          | none => Except.error "Aucune salle disponible"
          | some s => Except.ok s.id
      match chosen with
      | Except.error e => (Except.error e, st)
      | Except.ok rid =>
        match findSalle st rid with
        | none => (Except.error "Salle introuvable", st)
        | some _ =>
          let st1 := setPatient st pid (fun p =>
            { p with statut := StatutPatient.SALLE_ATTENTE,
                     salle_attente_id := some rid })
          let st2 := setSalle st1 rid
            (fun s => { s with patients := s.patients ++ [pid] })
          (Except.ok ("Retourné en " ++ rid), st2)

/-- Service method `TransportService.demarrer_transport_unite`.  The duration is 5 minutes
when the patient is `ROUGE` and 45 minutes otherwise, independent of the
destination unit. -/
def demarrer_transport_unite (pid sid : String) (st : EmergencyState) :
    Except String String × EmergencyState :=
  match lookupPatient st pid, findStaffById st sid with
  | none, _ => (Except.error "Patient ou Staff introuvable", st)
  | some _, none => (Except.error "Patient ou Staff introuvable", st)
  | some patient, some staff =>
    match patient.unite_cible with
    | none => (Except.error "Aucune unité cible", st)
    | some uc =>
      let uniteOk := match get_unite st uc with
        | none => false
        | some unite => unite.a_de_la_place
      if uniteOk = false then
        (Except.error ("Unité " ++ uc.str ++ " saturée"), st)
      else if ¬(staff.type = TypeStaff.AIDE_SOIGNANT ∨
                staff.type = TypeStaff.INFIRMIERE_MOBILE) then
        (Except.error "Type personnel non autorisé", st)
      else if ¬staff.peut_partir st.current_time then
        (Except.error "Staff non disponible", st)
      else
        let duree := if patient.gravite = Gravite.ROUGE then
            DUREE_TRANSPORT_UNITE_ROUGE
          else DUREE_TRANSPORT_UNITE_AUTRES
        let st1 := match patient.salle_attente_id with
          | some rid => setPatient
              (setSalle st rid (fun s => { s with patients := s.patients.erase pid }))
              pid (fun p => { p with salle_attente_id := none })
          | none => st
        let st2 := setPatient st1 pid (fun p =>
          { p with statut := StatutPatient.EN_TRANSPORT_SORTIE })
        let fin := st.current_time + duree
        let st3 := setStaff st2 sid (fun s =>
          { s with en_transport := true, disponible := false,
                   patient_transporte_id := some pid,
                   destination_transport := some uc.str,
                   fin_transport_prevue := some fin })
        let st4 := match staff.salle_surveillee with
          | some old => setStaff
              (setSalle st3 old (fun s => { s with surveillee_par := none }))
              sid (fun s => { s with salle_surveillee := none })
          | none => st3
        (Except.ok ("Arrivée : minute " ++ toString fin ++ " (" ++
          toString duree ++ " min)"), st4)

/-- Service method `TransportService.finaliser_transport_unite`.  Appends the patient to the
target unit without re-checking the unit's capacity. -/
def finaliser_transport_unite (pid : String) (st : EmergencyState) :
    Except String String × EmergencyState :=
  match lookupPatient st pid with
  | none => (Except.error "Patient pas en transport", st)
  | some patient =>
    if ¬(patient.statut = StatutPatient.EN_TRANSPORT_SORTIE) then
      (Except.error "Patient pas en transport", st)
    else
      let st1 := match patient.unite_cible with
        | some uc =>
          match get_unite st uc with
          | some _ => setUnite st uc
              (fun u => { u with patients := u.patients ++ [pid] })
          | none => st
        | none => st
      let st2 := match st1.staff.find?
          (fun s => s.patient_transporte_id = some pid) with
        | some t => release_staff t.id st1
        | none => st1
      let st3 := setPatient st2 pid (fun p =>
        { p with statut := StatutPatient.SORTI })
      (Except.ok "Transféré", st3)

/-! ## Queues (`state.py`) and Controller (`emergency_controller.py`) -/

/-- The ascending comparison on the `priorite_queue` key used by Python
`sorted(..., key=...)`: lexicographic order on `(tier, arrival_time)`. -/
def prioLe (now : Nat) (a b : Patient) : Bool :=
  (a.priorite_queue now).1 < (b.priorite_queue now).1 ∨
  ((a.priorite_queue now).1 = (b.priorite_queue now).1 ∧
   (a.priorite_queue now).2 ≤ (b.priorite_queue now).2)

/-- Query `EmergencyState.get_queue_consultation`: `InWaitingRoom` patients sorted
by the priority key (stable merge sort, as Python `sorted`). -/
def get_queue_consultation (st : EmergencyState) : List Patient :=
  ((st.patients.map (·.2)).filter
    (fun p => p.statut = StatutPatient.SALLE_ATTENTE)).mergeSort
    (prioLe st.current_time)

/-- Query `EmergencyState.get_queue_transport_sortie`. -/
def get_queue_transport_sortie (st : EmergencyState) : List Patient :=
  ((st.patients.map (·.2)).filter
    (fun p => p.statut = StatutPatient.ATTENTE_TRANSPORT_SORTIE)).mergeSort
    (prioLe st.current_time)

/-- Loop body of `EmergencyController.tick` for one staff member (looked up
afresh by id, since earlier finalizations may have mutated the roster). -/
def tickFinalizeStep (acc : List String × EmergencyState) (sid : String) :
    List String × EmergencyState :=
  let events := acc.1
  let st := acc.2
  match findStaffById st sid with
  | none => (events, st)
  | some staff =>
    if staff.en_transport then
      match staff.fin_transport_prevue with
      | some fin =>
        if fin ≤ st.current_time then
          if staff.destination_transport = some "consultation" then
            match staff.patient_transporte_id with
            | some pid =>
              match finaliser_transport_consultation pid st with
              | (Except.ok _, st2) =>
                (events ++ ["🚑 Patient " ++ pid ++ " arrivé en consultation"], st2)
              | (Except.error _, st2) => (events, st2)
            | none => (events, st)
          else
            match staff.patient_transporte_id with
            | some pid =>
              match finaliser_transport_unite pid st with
              | (Except.ok _, st2) =>
                (events ++ ["🏥 Patient " ++ pid ++ " arrivé en unité spécialisée"], st2)
              | (Except.error _, st2) => (events, st2)
            | none => (events, st)
        else (events, st)
      | none => (events, st)
    else (events, st)

/-- Controller method `EmergencyController.tick`: advance the clock, then walk the staff
roster in order and finalize every due transport. -/
def tick (minutes : Nat) (st : EmergencyState) :
    List String × EmergencyState :=
  let st1 := { st with current_time := st.current_time + minutes }
  (st1.staff.map Staff.id).foldl tickFinalizeStep ([], st1)

/-- Controller method `EmergencyController.get_alertes`: long-wait alerts (the supervision
alerts come from `EmergencyState.verifier_surveillance_salles`). -/
def get_alertes_longue_attente (st : EmergencyState) : List String :=
  ((st.patients.map (·.2)).filter (fun p =>
    p.statut = StatutPatient.SALLE_ATTENTE ∧
    p.temps_attente_minutes st.current_time > 360)).map (·.id)

/-- A public Controller operation (the facade methods of
`EmergencyController`; each wraps the corresponding service call). -/
inductive Op
  | ajouter (p : Patient)
  | assigner (pid : String) (room : Option String)
  | surveille (sid rid : String)
  | autoCover
  | demCons (pid sid : String)
  | finCons (pid : String)
  | termCons (pid : String) (u : UniteCible)
  | retour (pid sid : String) (room : Option String)
  | demUnite (pid sid : String)
  | finUnite (pid : String)
  | avance (m : Nat)

/-- State effect of one Controller operation (the controller returns the
service's result as a dict and never mutates beyond the service call). -/
def applyOp (st : EmergencyState) : Op → EmergencyState
  | .ajouter p => (ajouter_patient p st).2
  | .assigner pid room => (assigner_salle_attente pid room st).2
  | .surveille sid rid => (assigner_surveillance sid rid st).2
  | .autoCover => (verifier_et_gerer_surveillance st).2
  | .demCons pid sid => (demarrer_transport_consultation pid sid st).2
  | .finCons pid => (finaliser_transport_consultation pid st).2
  | .termCons pid u => (terminer_consultation pid u st).2
  | .retour pid sid room => (retourner_patient_salle_attente pid sid room st).2
  | .demUnite pid sid => (demarrer_transport_unite pid sid st).2
  | .finUnite pid => (finaliser_transport_unite pid st).2
  | .avance m => (tick m st).2

/-- Run a sequence of Controller operations. -/
def runOps (ops : List Op) (st : EmergencyState) : EmergencyState :=
  ops.foldl applyOp st

/-! ## Concrete data used by witnesses and counterexamples -/

/-- Build a patient record with fixed inert fields. -/
def mkPatient (pid : String) (g : Gravite) (statut : StatutPatient)
    (arrived : Nat) (salle : Option String) (uc : Option UniteCible) : Patient :=
  { id := pid, prenom := "A", nom := "B", gravite := g, symptomes := "",
    age := 40, antecedents := [], arrived_at := arrived,
    consultation_end_at := none, statut := statut,
    salle_attente_id := salle, unite_cible := uc }

/-- Controller-operation sequence that overflows `salle_attente_1`
(capacity 5): fill it with five patients, walk a sixth patient through
consultation, then call the rescue return with the full room given
explicitly — the source skips the fullness check on that path. -/
def c1Trace : List Op :=
  [ .ajouter (mkPatient "P1" .VERT .ATTENTE_TRIAGE 0 none none),
    .assigner "P1" (some "salle_attente_1"),
    .ajouter (mkPatient "P2" .VERT .ATTENTE_TRIAGE 0 none none),
    .assigner "P2" (some "salle_attente_1"),
    .ajouter (mkPatient "P3" .VERT .ATTENTE_TRIAGE 0 none none),
    .assigner "P3" (some "salle_attente_1"),
    .ajouter (mkPatient "P4" .VERT .ATTENTE_TRIAGE 0 none none),
    .assigner "P4" (some "salle_attente_1"),
    .ajouter (mkPatient "P5" .VERT .ATTENTE_TRIAGE 0 none none),
    .assigner "P5" (some "salle_attente_1"),
    .ajouter (mkPatient "P6" .JAUNE .ATTENTE_TRIAGE 0 none none),
    .assigner "P6" (some "salle_attente_2"),
    .demCons "P6" "Aide Soignant(e) A",
    .avance 5,
    .termCons "P6" .CARDIOLOGIE,
    .retour "P6" "Aide Soignant(e) A" (some "salle_attente_1") ]

/-- The patient used for the invalid-transition witness. -/
def c2Patient : Patient := mkPatient "PC" .JAUNE .EN_CONSULTATION 0 none none

/-- A state with one patient in consultation. -/
def c2State : EmergencyState :=
  { initState with
    patients := [("PC", c2Patient)],
    consultation := { patient_id := some "PC", debut_consultation := some 0 } }

/-- A `ROUGE` patient awaiting exit transport, bound for `Cardiologie`
(not the critical-care unit). -/
def c4State : EmergencyState :=
  { initState with
    patients := [("PR", mkPatient "PR" .ROUGE .ATTENTE_TRANSPORT_SORTIE 0 none
      (some .CARDIOLOGIE))] }

/-- A state whose only patient is in consultation (not awaiting triage). -/
def c7State : EmergencyState :=
  { initState with
    patients := [("PX", mkPatient "PX" .JAUNE .EN_CONSULTATION 0 none none)],
    consultation := { patient_id := some "PX", debut_consultation := some 0 } }

/-- A room holding a patient, unsupervised, with idle mobile staff present. -/
def c8StaffState : EmergencyState :=
  { initState with
    salles_attente := updateFirst (fun s => s.id = "salle_attente_1")
      (fun s => { s with patients := ["PA"] }) initState.salles_attente,
    patients := [("PA", mkPatient "PA" .VERT .SALLE_ATTENTE 0
      (some "salle_attente_1") none)] }

/-- The same room situation with every staff member unavailable. -/
def c8NoStaffState : EmergencyState :=
  { c8StaffState with
    staff := c8StaffState.staff.map (fun s => { s with disponible := false }) }

/-! ## Auxiliary predicates for stating the `tick` theorem -/

/-- A staff member whose transport is due at time `now`. -/
def dueB (now : Nat) (s : Staff) : Bool :=
  s.en_transport && match s.fin_transport_prevue with
    | some f => decide (f ≤ now)
    | none => false

/-- Whether the staff member's transport destination is the consultation. -/
def destConsultation (s : Staff) : Bool :=
  s.destination_transport = some "consultation"

/-- The patient status a due transport requires for its finalization. -/
def attenduStatut (s : Staff) : StatutPatient :=
  if destConsultation s then StatutPatient.EN_TRANSPORT_CONSULTATION
  else StatutPatient.EN_TRANSPORT_SORTIE

/-- The patient status produced by finalizing the staff member's transport. -/
def finalStatut (s : Staff) : StatutPatient :=
  if destConsultation s then StatutPatient.EN_CONSULTATION
  else StatutPatient.SORTI

/-- The event string `tick` appends for one finalized transport. -/
def tickEvent (s : Staff) : String :=
  match s.patient_transporte_id with
  | some pid =>
    if destConsultation s then "🚑 Patient " ++ pid ++ " arrivé en consultation"
    else "🏥 Patient " ++ pid ++ " arrivé en unité spécialisée"
  | none => ""

/-- Coherence of the transport bookkeeping, as established by the
start-transport operations: staff ids are distinct, every due staff member
carries a patient id whose patient exists with the matching in-transit
status, and no two staff members transport the same patient. -/
def TickCoherent (st : EmergencyState) (now : Nat) : Prop :=
  (st.staff.map Staff.id).Nodup ∧
  ∀ s ∈ st.staff, dueB now s = true →
    ∃ pid, s.patient_transporte_id = some pid ∧
      (∃ p, lookupPatient st pid = some p ∧ p.statut = attenduStatut s) ∧
      ∀ t ∈ st.staff, t.patient_transporte_id = some pid → t.id = s.id

/-- An idle staff member for the `tick` witness state. -/
def mkIdleStaff (sid : String) (ty : TypeStaff) : Staff :=
  { id := sid, type := ty, disponible := true, localisation := "repos",
    salle_surveillee := none, occupe_depuis := none,
    doit_revenir_avant := none, en_transport := false,
    patient_transporte_id := none, destination_transport := none,
    fin_transport_prevue := none }

/-- The one in-transit staff member of the `tick` witness state:
`Aide Soignant(e) A` transporting patient `PT` to consultation, due at
minute 5. -/
def aideEnTransport : Staff :=
  { mkIdleStaff "Aide Soignant(e) A" .AIDE_SOIGNANT with
    en_transport := true, disponible := false,
    patient_transporte_id := some "PT",
    destination_transport := some "consultation",
    fin_transport_prevue := some 5 }

/-- A state with one staff member in transit to consultation, due at
minute 5: `Aide Soignant(e) A` transports patient `PT`. -/
def c5State : EmergencyState :=
  { initState with
    patients := [("PT", mkPatient "PT" .JAUNE .EN_TRANSPORT_CONSULTATION 0
      none none)],
    consultation := { patient_id := some "PT", debut_consultation := none },
    staff := [mkIdleStaff "Medecin" .MEDECIN,
      mkIdleStaff "Infirmier(ère) Triage" .INFIRMIERE_FIXE,
      mkIdleStaff "Infirmier(ère) B" .INFIRMIERE_MOBILE,
      mkIdleStaff "Infirmier(ère) C" .INFIRMIERE_MOBILE,
      aideEnTransport,
      mkIdleStaff "Aide Soignant(e) B" .AIDE_SOIGNANT] }

/-- Controller-operation sequence dispatching two staff members with the
same patient: the start-transport operations never check the patient's
status, so both calls succeed, and both transporters become due at
minute 45. -/
def c5SetupTrace : List Op :=
  [ .ajouter (mkPatient "P7" .JAUNE .ATTENTE_TRIAGE 0 none
      (some .CARDIOLOGIE)),
    .demUnite "P7" "Aide Soignant(e) A",
    .demUnite "P7" "Aide Soignant(e) B" ]

/-- The reachable state in which two staff members transport patient `P7`. -/
def c5SetupState : EmergencyState := runOps c5SetupTrace initState

/-! ## Helper lemmas about `updateFirst` and `find?` -/

theorem find?_updateFirst_self (p : α → Bool) (f : α → α) (l : List α)
    (hf : ∀ x, p x = true → p (f x) = true) :
    (updateFirst p f l).find? p = (l.find? p).map f := by
  induction l with
  | nil => rfl
  | cons a as ih =>
    by_cases h : p a = true
    · rw [updateFirst]
      simp [h, List.find?_cons_of_pos, hf a h]
    · rw [updateFirst]
      simp only [h, if_false, Bool.false_eq_true, ite_false]
      rw [List.find?_cons_of_neg _ (by simp [h]), List.find?_cons_of_neg _ (by simp [h]), ih]

theorem find?_updateFirst_other (p q : α → Bool) (f : α → α) (l : List α)
    (hq : ∀ x, q (f x) = q x)
    (hpq : ∀ x, p x = true → q x = true → False) :
    (updateFirst p f l).find? q = l.find? q := by
  induction l with
  | nil => rfl
  | cons a as ih =>
    by_cases h : p a = true
    · have hqa : q a = false := by
        cases hqe : q a
        · rfl
        · exact absurd (hpq a h hqe) not_false
      rw [updateFirst]
      simp only [h, if_true, ite_true]
      rw [List.find?_cons_of_neg _ (by simp [hq a, hqa]),
          List.find?_cons_of_neg _ (by simp [hqa])]
    · rw [updateFirst]
      simp only [h, if_false, Bool.false_eq_true, ite_false]
      by_cases h2 : q a = true
      · rw [List.find?_cons_of_pos _ h2, List.find?_cons_of_pos _ h2]
      · rw [List.find?_cons_of_neg _ (by simp [h2]),
            List.find?_cons_of_neg _ (by simp [h2]), ih]

theorem find?_eq_of_unique (q : α → Bool) (l : List α) (x : α)
    (hx : x ∈ l) (hqx : q x = true)
    (huniq : ∀ y ∈ l, q y = true → y = x) :
    l.find? q = some x := by
  induction l with
  | nil => cases hx
  | cons a as ih =>
    by_cases h : q a = true
    · have ha : a = x := huniq a (List.mem_cons_self a as) h
      rw [List.find?_cons_of_pos _ h, ha]
    · have hxas : x ∈ as := by
        rcases List.mem_cons.mp hx with he | hm
        · exact absurd (he ▸ hqx) (by simpa using h)
        · exact hm
      rw [List.find?_cons_of_neg _ (by simp [h])]
      exact ih hxas (fun y hy hqy => huniq y (List.mem_cons_of_mem a hy) hqy)

theorem mem_updateFirst (p : α → Bool) (f : α → α) (l : List α) (x : α)
    (hx : x ∈ updateFirst p f l) :
    x ∈ l ∨ ∃ y, l.find? p = some y ∧ x = f y := by
  induction l with
  | nil => rw [updateFirst] at hx; cases hx
  | cons a as ih =>
    by_cases h : p a = true
    · rw [updateFirst] at hx
      simp only [h, if_true, ite_true] at hx
      rcases List.mem_cons.mp hx with he | hm
      · exact Or.inr ⟨a, List.find?_cons_of_pos _ h, he⟩
      · exact Or.inl (List.mem_cons_of_mem a hm)
    · rw [updateFirst] at hx
      simp only [h, if_false, Bool.false_eq_true, ite_false] at hx
      rcases List.mem_cons.mp hx with he | hm
      · exact Or.inl (he ▸ List.mem_cons_self a as)
      · rcases ih hm with h1 | ⟨y, hy, he⟩
        · exact Or.inl (List.mem_cons_of_mem a h1)
        · exact Or.inr ⟨y, by rw [List.find?_cons_of_neg _ (by simp [h])]; exact hy, he⟩

theorem lookupPatient_find (st : EmergencyState) (pid : String) (p : Patient)
    (hp : lookupPatient st pid = some p) :
    st.patients.find? (fun kv => kv.1 = pid) = some (pid, p) := by
  unfold lookupPatient at hp
  cases hfind : st.patients.find? (fun kv => kv.1 = pid) with
  | none => rw [hfind] at hp; cases hp
  | some kv =>
    have h1 := List.find?_some hfind
    rw [hfind] at hp
    rw [show Option.map (fun x => x.2) (some kv) = some kv.2 from rfl] at hp
    cases kv with
    | mk k v =>
      simp only [decide_eq_true_eq] at h1
      subst h1
      simp only [Option.some.injEq] at hp
      rw [hp]

theorem lookupPatient_setPatient_self (st : EmergencyState) (pid : String)
    (p : Patient) (f : Patient → Patient) (hp : lookupPatient st pid = some p) :
    lookupPatient (setPatient st pid f) pid = some (f p) := by
  unfold lookupPatient setPatient
  simp only
  rw [find?_updateFirst_self (fun (kv : String × Patient) => decide (kv.1 = pid))
    (fun kv => (kv.1, f kv.2)) st.patients (fun x hx => hx)]
  rw [lookupPatient_find st pid p hp]
  rfl

theorem lookupPatient_setPatient_other (st : EmergencyState) (pid q : String)
    (f : Patient → Patient) (hne : q ≠ pid) :
    lookupPatient (setPatient st pid f) q = lookupPatient st q := by
  unfold lookupPatient setPatient
  simp only
  rw [find?_updateFirst_other (fun (kv : String × Patient) => decide (kv.1 = pid))
    (fun kv => decide (kv.1 = q)) (fun kv => (kv.1, f kv.2)) st.patients
    (fun x => rfl)
    (fun x hx hq => hne (by
      simp only [decide_eq_true_eq] at hx hq
      rw [← hq, ← hx]))]

theorem findStaffById_find (st : EmergencyState) (sid : String) (s : Staff)
    (h : findStaffById st sid = some s) : s.id = sid ∧ s ∈ st.staff := by
  unfold findStaffById at h
  exact ⟨by simpa using List.find?_some h, List.mem_of_find?_eq_some h⟩

theorem findStaffById_setStaff_self (st : EmergencyState) (sid : String)
    (s : Staff) (f : Staff → Staff) (hf : ∀ x, (f x).id = x.id)
    (h : findStaffById st sid = some s) :
    findStaffById (setStaff st sid f) sid = some (f s) := by
  unfold findStaffById setStaff
  simp only
  rw [find?_updateFirst_self (fun (x : Staff) => decide (x.id = sid)) f st.staff
    (fun x hx => by simpa [hf x] using hx)]
  unfold findStaffById at h
  rw [h]
  rfl

theorem findStaffById_setStaff_other (st : EmergencyState) (sid q : String)
    (f : Staff → Staff) (hne : q ≠ sid) (hf : ∀ x, (f x).id = x.id) :
    findStaffById (setStaff st sid f) q = findStaffById st q := by
  unfold findStaffById setStaff
  simp only
  rw [find?_updateFirst_other (fun (x : Staff) => decide (x.id = sid))
    (fun x => decide (x.id = q)) f st.staff
    (fun x => by simp [hf x])
    (fun x hx hq => hne (by
      simp only [decide_eq_true_eq] at hx hq
      rw [← hq, ← hx]))]

theorem findStaffById_setStaff_map (st : EmergencyState) (sid : String)
    (f : Staff → Staff) (hf : ∀ x, (f x).id = x.id) :
    findStaffById (setStaff st sid f) sid = (findStaffById st sid).map f := by
  unfold findStaffById setStaff
  simp only
  rw [find?_updateFirst_self (fun (x : Staff) => decide (x.id = sid)) f st.staff
    (fun x hx => by simpa [hf x] using hx)]

/-! ## C2 — state-machine totality of `update_status` -/

/-- C2: for a known patient and any (current, target) pair outside the
allowed edge list (`isValidTransition`), `update_status` fails with the
invalid-transition error and the whole state is returned unchanged. -/
theorem update_status_invalid_rejected (st : EmergencyState) (pid : String)
    (p : Patient) (target : StatutPatient)
    (hp : lookupPatient st pid = some p)
    (hinv : isValidTransition p.statut target = false) :
    update_status pid target st =
      (Except.error ("Transition invalide : " ++ p.statut.str ++ " → " ++
        target.str), st) := by
  unfold update_status
  rw [hp]
  simp [hinv]

/-- Witness for C2: a patient in consultation cannot jump back to the
waiting room. -/
theorem update_status_invalid_rejected_witness :
    update_status "PC" StatutPatient.SALLE_ATTENTE c2State =
      (Except.error ("Transition invalide : " ++
        StatutPatient.EN_CONSULTATION.str ++ " → " ++
        StatutPatient.SALLE_ATTENTE.str), c2State) :=
  update_status_invalid_rejected c2State "PC" c2Patient
    StatutPatient.SALLE_ATTENTE (by decide) (by decide)

/-! ## C9 — finalize-to-consultation on a non-in-transit patient -/

/-- C9: when the patient id is unknown, or the patient's status is not
`EN_TRANSPORT_CONSULTATION`, `finaliser_transport_consultation` returns the
error and the state — patients, consultation slot and staff — unchanged. -/
theorem finaliser_consultation_error_no_change (st : EmergencyState)
    (pid : String)
    (h : ∀ p, lookupPatient st pid = some p →
      p.statut ≠ StatutPatient.EN_TRANSPORT_CONSULTATION) :
    finaliser_transport_consultation pid st =
      (Except.error "Patient pas en transport", st) := by
  unfold finaliser_transport_consultation
  cases hl : lookupPatient st pid with
  | none => rfl
  | some p =>
    have hs := h p hl
    simp [hs]

/-- Witness for C9: an unknown patient id at the initial state. -/
theorem finaliser_consultation_error_no_change_witness :
    finaliser_transport_consultation "ghost" initState =
      (Except.error "Patient pas en transport", initState) :=
  finaliser_consultation_error_no_change initState "ghost"
    (fun p hp => by simp [lookupPatient, initState] at hp)

/-! ## C7 — `assigner_salle_attente` checks -/

/-- C7 counterexample: the source performs no status check, so a patient who
is in consultation (not awaiting triage) is successfully placed into a
waiting room. -/
theorem assigner_no_status_check :
    (lookupPatient c7State "PX").map Patient.statut =
      some StatutPatient.EN_CONSULTATION ∧
    (assigner_salle_attente "PX" (some "salle_attente_1") c7State).1 =
      Except.ok "salle_attente_1" ∧
    ((findSalle (assigner_salle_attente "PX" (some "salle_attente_1")
      c7State).2 "salle_attente_1").map SalleAttente.patients) = some ["PX"] ∧
    (lookupPatient (assigner_salle_attente "PX" (some "salle_attente_1")
      c7State).2 "PX").map Patient.statut =
      some StatutPatient.SALLE_ATTENTE :=
  ⟨rfl, rfl, rfl, rfl⟩

/-- C7 amended: `assigner_salle_attente` does fail, with the state
unchanged, whenever the patient id is unknown (the status is never
checked). -/
theorem assigner_unknown_rejected (st : EmergencyState) (pid : String)
    (room : Option String) (h : lookupPatient st pid = none) :
    assigner_salle_attente pid room st =
      (Except.error ("Patient " ++ pid ++ " introuvable"), st) := by
  unfold assigner_salle_attente
  rw [h]

/-- Witness for the amended C7: an unknown id at the initial state. -/
theorem assigner_unknown_rejected_witness :
    assigner_salle_attente "ghost2" none initState =
      (Except.error ("Patient " ++ "ghost2" ++ " introuvable"), initState) :=
  assigner_unknown_rejected initState "ghost2" none (by decide)

/-! ## C10 — the in-transit exclusion flag is redundant -/

theorem peut_partir_false_of_en_transport (s : Staff) (now : Nat)
    (h : s.en_transport = true) : s.peut_partir now = false := by
  unfold Staff.peut_partir
  split
  · rfl
  · rw [if_pos (Or.inr (by simp [h]))]

/-- C10: `find_available_staff` returns the same list whether or not it is
asked to exclude staff in transit, because the may-leave predicate already
rejects anyone in transit. -/
theorem find_available_staff_flag_irrelevant (st : EmergencyState)
    (t : TypeStaff) :
    find_available_staff t false st = find_available_staff t true st := by
  unfold find_available_staff
  apply List.filter_congr
  intro s _
  by_cases h : s.en_transport = true
  · have hp := peut_partir_false_of_en_transport s st.current_time h
    simp [h, hp]
  · simp only [Bool.not_eq_true] at h
    simp [h]

/-! ## C8 — `verifier_et_gerer_surveillance` raises on available staff -/

/-- C8: with a populated, unsupervised room and an idle mobile staff member,
the auto-cover loop calls the nonexistent method `assign_room_surveillance`
and aborts with an uncaught `AttributeError`; with no available staff it
returns the empty action list without failing, leaving the state unchanged. -/
theorem auto_cover_attribute_error :
    (verifier_et_gerer_surveillance c8StaffState).1 =
      Except.error
        "AttributeError: StaffService object has no attribute assign_room_surveillance" ∧
    verifier_et_gerer_surveillance c8NoStaffState =
      (Except.ok [], c8NoStaffState) := by
  constructor
  · rfl
  · rfl

/-! ## Frame lemmas: operations on one field leave the others untouched -/

theorem lookupPatient_setSalle (st : EmergencyState) (rid : String)
    (f : SalleAttente → SalleAttente) (pid : String) :
    lookupPatient (setSalle st rid f) pid = lookupPatient st pid := rfl

theorem lookupPatient_setUnite (st : EmergencyState) (nom : UniteCible)
    (f : Unite → Unite) (pid : String) :
    lookupPatient (setUnite st nom f) pid = lookupPatient st pid := rfl

theorem lookupPatient_setStaff (st : EmergencyState) (sid : String)
    (f : Staff → Staff) (pid : String) :
    lookupPatient (setStaff st sid f) pid = lookupPatient st pid := rfl

theorem lookupPatient_consult (st : EmergencyState) (c : Consultation)
    (pid : String) :
    lookupPatient { st with consultation := c } pid = lookupPatient st pid := rfl

theorem findStaffById_setSalle (st : EmergencyState) (rid : String)
    (f : SalleAttente → SalleAttente) (sid : String) :
    findStaffById (setSalle st rid f) sid = findStaffById st sid := rfl

theorem findStaffById_setPatient (st : EmergencyState) (pid : String)
    (f : Patient → Patient) (sid : String) :
    findStaffById (setPatient st pid f) sid = findStaffById st sid := rfl

theorem findStaffById_setUnite (st : EmergencyState) (nom : UniteCible)
    (f : Unite → Unite) (sid : String) :
    findStaffById (setUnite st nom f) sid = findStaffById st sid := rfl

theorem findStaffById_consult (st : EmergencyState) (c : Consultation)
    (sid : String) :
    findStaffById { st with consultation := c } sid = findStaffById st sid := rfl

/-! ## C6 — `terminer_consultation` -/

/-- C6: `terminer_consultation` (i) fails with the state unchanged unless
the patient is in consultation, (ii) rejects sending a `ROUGE` patient home
with the state unchanged, (iii) on success with destination `Maison`
discharges the patient immediately and clears the consultation slot,
(iv) on success with any other destination sets
`ATTENTE_TRANSPORT_SORTIE`, records the target unit, and clears the
consultation slot. -/
theorem terminer_consultation_spec (st : EmergencyState) (pid : String)
    (u : UniteCible) (p : Patient) (hp : lookupPatient st pid = some p) :
    (p.statut ≠ StatutPatient.EN_CONSULTATION →
      terminer_consultation pid u st =
        (Except.error "Patient pas en consultation", st)) ∧
    (p.statut = StatutPatient.EN_CONSULTATION → p.gravite = Gravite.ROUGE →
      u = UniteCible.MAISON →
      terminer_consultation pid u st =
        (Except.error "Incohérence : ROUGE ne peut pas sortir", st)) ∧
    (p.statut = StatutPatient.EN_CONSULTATION → u = UniteCible.MAISON →
      p.gravite ≠ Gravite.ROUGE →
      (terminer_consultation pid u st).1 =
        Except.ok ("Destination : " ++ u.str) ∧
      lookupPatient (terminer_consultation pid u st).2 pid =
        some { p with
          unite_cible := some u,
          consultation_end_at := some st.current_time,
          statut := StatutPatient.SORTI } ∧
      (terminer_consultation pid u st).2.consultation.patient_id = none) ∧
    (p.statut = StatutPatient.EN_CONSULTATION → u ≠ UniteCible.MAISON →
      (terminer_consultation pid u st).1 =
        Except.ok ("Destination : " ++ u.str) ∧
      lookupPatient (terminer_consultation pid u st).2 pid =
        some { p with
          unite_cible := some u,
          consultation_end_at := some st.current_time,
          statut := StatutPatient.ATTENTE_TRANSPORT_SORTIE } ∧
      (terminer_consultation pid u st).2.consultation.patient_id = none) := by
  refine ⟨?_, ?_, ?_, ?_⟩
  · intro h
    unfold terminer_consultation
    rw [hp]
    simp [h]
  · intro h1 h2 h3
    unfold terminer_consultation
    rw [hp]
    simp [h1, h2, h3]
  · intro h1 h2 h3
    subst h2
    unfold terminer_consultation
    rw [hp]
    simp [h1, h3]
    exact lookupPatient_setPatient_self st pid p
      (fun q => { q with
        unite_cible := some UniteCible.MAISON,
        consultation_end_at := some st.current_time,
        statut := StatutPatient.SORTI }) hp
  · intro h1 h2
    unfold terminer_consultation
    rw [hp]
    simp [h1, h2]
    exact lookupPatient_setPatient_self st pid p
      (fun q => { q with
        unite_cible := some u,
        consultation_end_at := some st.current_time,
        statut := StatutPatient.ATTENTE_TRANSPORT_SORTIE }) hp

/-- Witness for C6: ending the consultation of the patient of `c2State`
towards cardiology. -/
theorem terminer_consultation_spec_witness :
    (terminer_consultation "PC" UniteCible.CARDIOLOGIE c2State).1 =
      Except.ok ("Destination : " ++ UniteCible.CARDIOLOGIE.str) ∧
    lookupPatient (terminer_consultation "PC" UniteCible.CARDIOLOGIE c2State).2
      "PC" = some { c2Patient with
        unite_cible := some UniteCible.CARDIOLOGIE,
        consultation_end_at := some c2State.current_time,
        statut := StatutPatient.ATTENTE_TRANSPORT_SORTIE } ∧
    (terminer_consultation "PC" UniteCible.CARDIOLOGIE
      c2State).2.consultation.patient_id = none :=
  (terminer_consultation_spec c2State "PC" UniteCible.CARDIOLOGIE c2Patient
    (by decide)).2.2.2 (by decide) (by decide)

/-! ## C4 — unit-transport duration -/

/-- C4 counterexample: a `ROUGE` patient bound for `Cardiologie` (not the
critical-care unit) is transported in 5 minutes, where the claim demands
45 minutes for every severity/unit pair other than (ROUGE, critical care).
The clock is at 0, so the recorded expected arrival equals the duration. -/
theorem rouge_noncritical_duration_five :
    (lookupPatient c4State "PR").map Patient.gravite = some Gravite.ROUGE ∧
    (lookupPatient c4State "PR").map Patient.unite_cible =
      some (some UniteCible.CARDIOLOGIE) ∧
    UniteCible.CARDIOLOGIE ≠ UniteCible.SOINS_CRITIQUES ∧
    c4State.current_time = 0 ∧
    ((findStaffById (demarrer_transport_unite "PR" "Aide Soignant(e) A"
        c4State).2 "Aide Soignant(e) A").map
      Staff.fin_transport_prevue) = some (some 5) ∧
    (5 : Nat) ≠ 45 := by
  decide

/-- C4 amended: for every successful `demarrer_transport_unite` call, the
computed duration is 5 minutes exactly when the patient's severity is
`ROUGE` — regardless of the destination unit — and 45 minutes otherwise. -/
theorem unit_transport_duration (st : EmergencyState) (pid sid : String)
    (msg : String)
    (h : (demarrer_transport_unite pid sid st).1 = Except.ok msg) :
    ∃ p, lookupPatient st pid = some p ∧
      ∃ s2, findStaffById (demarrer_transport_unite pid sid st).2 sid =
          some s2 ∧
        s2.fin_transport_prevue = some (st.current_time +
          (if p.gravite = Gravite.ROUGE then DUREE_TRANSPORT_UNITE_ROUGE
           else DUREE_TRANSPORT_UNITE_AUTRES)) := by
  unfold demarrer_transport_unite at h ⊢
  cases hl : lookupPatient st pid with
  | none => rw [hl] at h; cases h
  | some p =>
    rw [hl] at h
    cases hs : findStaffById st sid with
    | none => rw [hs] at h; cases h
    | some staff =>
      rw [hs] at h
      dsimp only at h ⊢
      cases hu : p.unite_cible with
      | none => rw [hu] at h; cases h
      | some uc =>
        rw [hu] at h
        dsimp only at h ⊢
        refine ⟨p, rfl, ?_⟩
        by_cases hok : (match get_unite st uc with
          | none => false
          | some unite => unite.a_de_la_place) = false
        · rw [if_pos hok] at h; cases h
        · rw [if_neg hok] at h ⊢
          by_cases hty : ¬(staff.type = TypeStaff.AIDE_SOIGNANT ∨
              staff.type = TypeStaff.INFIRMIERE_MOBILE)
          · rw [if_pos hty] at h; cases h
          · rw [if_neg hty] at h ⊢
            by_cases hpl : ¬(staff.peut_partir st.current_time = true)
            · rw [if_pos hpl] at h; cases h
            · rw [if_neg hpl] at h ⊢
              cases hroom : p.salle_attente_id with
              | none =>
                dsimp only at h ⊢
                cases hsv : staff.salle_surveillee with
                | none =>
                  dsimp only at h ⊢
                  rw [findStaffById_setStaff_map, findStaffById_setPatient, hs]
                  · exact ⟨_, rfl, rfl⟩
                  · exact fun x => rfl
                | some old =>
                  dsimp only at h ⊢
                  rw [findStaffById_setStaff_map, findStaffById_setSalle,
                    findStaffById_setStaff_map, findStaffById_setPatient, hs]
                  · exact ⟨_, rfl, rfl⟩
                  · exact fun x => rfl
                  · exact fun x => rfl
              | some rid =>
                dsimp only at h ⊢
                cases hsv : staff.salle_surveillee with
                | none =>
                  dsimp only at h ⊢
                  rw [findStaffById_setStaff_map, findStaffById_setPatient,
                    findStaffById_setPatient, findStaffById_setSalle, hs]
                  · exact ⟨_, rfl, rfl⟩
                  · exact fun x => rfl
                | some old =>
                  dsimp only at h ⊢
                  rw [findStaffById_setStaff_map, findStaffById_setSalle,
                    findStaffById_setStaff_map, findStaffById_setPatient,
                    findStaffById_setPatient, findStaffById_setSalle, hs]
                  · exact ⟨_, rfl, rfl⟩
                  · exact fun x => rfl
                  · exact fun x => rfl

/-- Witness for the amended C4: the successful call of `c4State`. -/
theorem unit_transport_duration_witness :
    ∃ p, lookupPatient c4State "PR" = some p ∧
      ∃ s2, findStaffById (demarrer_transport_unite "PR" "Aide Soignant(e) A"
          c4State).2 "Aide Soignant(e) A" = some s2 ∧
        s2.fin_transport_prevue = some (c4State.current_time +
          (if p.gravite = Gravite.ROUGE then DUREE_TRANSPORT_UNITE_ROUGE
           else DUREE_TRANSPORT_UNITE_AUTRES)) :=
  unit_transport_duration c4State "PR" "Aide Soignant(e) A"
    "Arrivée : minute 5 (5 min)" (by rfl)

/-! ## C1 — capacity invariant -/

/-- C1 counterexample: running `c1Trace` from the initial state leaves
`salle_attente_1` with six occupants against a declared capacity of five,
because `retourner_patient_salle_attente` with an explicit room performs no
fullness check. -/
theorem capacity_invariant_violated :
    (findSalle (runOps c1Trace initState) "salle_attente_1").map
      (fun s => (s.capacite, s.patients.length)) = some (5, 6) ∧
    (runOps c1Trace initState).salles_attente.any
      (fun s => s.capacite < s.patients.length) = true := by
  constructor
  · rfl
  · decide

/-- C1 amended: room admission through `assigner_salle_attente` does
preserve the capacity bound on every waiting room (the bound is enforced
there, and only violated by the rescue return with an explicit room and by
`finaliser_transport_unite`, which do not re-check capacity). -/
theorem assigner_preserves_capacity (st : EmergencyState) (pid : String)
    (room : Option String)
    (hinv : ∀ s ∈ st.salles_attente, s.patients.length ≤ s.capacite) :
    ∀ s ∈ (assigner_salle_attente pid room st).2.salles_attente,
      s.patients.length ≤ s.capacite := by
  have core : ∀ rid salle, findSalle st rid = some salle →
      salle.est_pleine = false →
      ∀ s ∈ (updateFirst (fun r => decide (r.id = rid))
        (fun r => { r with patients := r.patients ++ [pid] })
        st.salles_attente),
        s.patients.length ≤ s.capacite := by
    intro rid salle hf hnf s hs
    rcases mem_updateFirst _ _ _ _ hs with hmem | ⟨y, hy, he⟩
    · exact hinv s hmem
    · unfold findSalle at hf
      rw [hf] at hy
      have hysalle : y = salle := by
        injection hy with hy2
        exact hy2.symm
      subst hysalle
      subst he
      have hlt : y.patients.length < y.capacite := by
        unfold SalleAttente.est_pleine at hnf
        simpa using hnf
      simpa using hlt
  unfold assigner_salle_attente
  cases hl : lookupPatient st pid with
  | none => exact hinv
  | some p =>
    dsimp only
    cases room with
    | some r =>
      dsimp only
      cases hfs : findSalle st r with
      | none => exact hinv
      | some salle =>
        dsimp only
        by_cases hfull : salle.est_pleine = true
        · rw [if_pos hfull]
          exact hinv
        · rw [if_neg hfull]
          exact core r salle hfs (by simpa using hfull)
    | none =>
      dsimp only
      cases hmax : maxByFirst SalleAttente.places_disponibles
          (st.salles_attente.filter (fun s => ¬s.est_pleine)) with
      | none => exact hinv
      | some s0 =>
        dsimp only
        cases hfs : findSalle st s0.id with
        | none => exact hinv
        | some salle =>
          dsimp only
          by_cases hfull : salle.est_pleine = true
          · rw [if_pos hfull]
            exact hinv
          · rw [if_neg hfull]
            exact core s0.id salle hfs (by simpa using hfull)

/-- Witness for the amended C1: placing the patient of `c7State` into
`salle_attente_1` keeps that room within capacity. -/
theorem assigner_preserves_capacity_witness :
    (SalleAttente.mk "salle_attente_1" 5 ["PX"] none 0).patients.length ≤
      (SalleAttente.mk "salle_attente_1" 5 ["PX"] none 0).capacite :=
  assigner_preserves_capacity c7State "PX" (some "salle_attente_1")
    (by decide) (SalleAttente.mk "salle_attente_1" 5 ["PX"] none 0)
    (by decide)

/-! ## C3 — priority ordering of the consultation queue -/

theorem prioLe_trans (now : Nat) (a b c : Patient) :
    prioLe now a b → prioLe now b c → prioLe now a c := by
  unfold prioLe
  intro h1 h2
  simp only [decide_eq_true_eq] at h1 h2 ⊢
  omega

theorem prioLe_total (now : Nat) (a b : Patient) :
    prioLe now a b || prioLe now b a := by
  unfold prioLe
  simp only [Bool.or_eq_true, decide_eq_true_eq]
  omega

theorem priorite_tier_rouge (p : Patient) (now : Nat)
    (h : p.gravite = Gravite.ROUGE) : (p.priorite_queue now).1 = 0 := by
  unfold Patient.priorite_queue
  simp [h]

theorem priorite_tier_jaune (p : Patient) (now : Nat)
    (h : p.gravite = Gravite.JAUNE) : (p.priorite_queue now).1 = 2 := by
  unfold Patient.priorite_queue
  simp [h]

theorem priorite_tier_vert_long (p : Patient) (now : Nat)
    (h : p.gravite = Gravite.VERT) (hw : p.temps_attente_minutes now > 360) :
    (p.priorite_queue now).1 = 1 := by
  unfold Patient.priorite_queue
  simp [h, hw]

/-- C3: in the consultation queue sorted by the priority key, no `JAUNE`
patient ever precedes a `ROUGE` patient, and no `JAUNE` patient ever
precedes a `VERT` patient whose wait exceeds 360 minutes — i.e. every
`ROUGE`, and every long-waiting `VERT`, is placed before every `JAUNE`. -/
theorem queue_priority_ordering (st : EmergencyState) :
    (get_queue_consultation st).Pairwise (fun a b =>
      (b.gravite = Gravite.ROUGE → a.gravite ≠ Gravite.JAUNE) ∧
      (b.gravite = Gravite.VERT ∧
          b.temps_attente_minutes st.current_time > 360 →
        a.gravite ≠ Gravite.JAUNE)) := by
  have hs := @List.sorted_mergeSort Patient (prioLe st.current_time)
    (prioLe_trans st.current_time) (prioLe_total st.current_time)
    ((st.patients.map (·.2)).filter
      (fun p => p.statut = StatutPatient.SALLE_ATTENTE))
  unfold get_queue_consultation
  refine List.Pairwise.imp ?_ hs
  intro a b hab
  constructor
  · intro hbR haJ
    have h1 := priorite_tier_rouge b st.current_time hbR
    have h2 := priorite_tier_jaune a st.current_time haJ
    unfold prioLe at hab
    simp only [decide_eq_true_eq] at hab
    omega
  · intro hb haJ
    have h1 := priorite_tier_vert_long b st.current_time hb.1 hb.2
    have h2 := priorite_tier_jaune a st.current_time haJ
    unfold prioLe at hab
    simp only [decide_eq_true_eq] at hab
    omega

/-! ## C5 — `tick`: clock advance and due-transport finalization -/

theorem staff_setUnite (st : EmergencyState) (nom : UniteCible)
    (f : Unite → Unite) : (setUnite st nom f).staff = st.staff := rfl

theorem finaliser_consultation_ok (st : EmergencyState) (pid : String)
    (p : Patient) (s : Staff)
    (hp : lookupPatient st pid = some p)
    (hst : p.statut = StatutPatient.EN_TRANSPORT_CONSULTATION)
    (hfindt : st.staff.find?
      (fun t => t.patient_transporte_id = some pid) = some s)
    (hfs : findStaffById st s.id = some s) :
    ∃ st2, finaliser_transport_consultation pid st =
        (Except.ok "Consultation démarrée", st2) ∧
      st2.current_time = st.current_time ∧
      st2.staff = updateFirst (fun t => decide (t.id = s.id)) releaseFields
        st.staff ∧
      st2.patients = updateFirst (fun kv => decide (kv.1 = pid))
        (fun kv => (kv.1, { kv.2 with
          statut := StatutPatient.EN_CONSULTATION })) st.patients := by
  unfold finaliser_transport_consultation
  rw [hp]
  dsimp only
  rw [if_neg (by simp [hst])]
  rw [hfindt]
  unfold release_staff
  dsimp only
  rw [hfs]
  exact ⟨_, rfl, rfl, rfl, rfl⟩

theorem finaliser_unite_ok (st : EmergencyState) (pid : String)
    (p : Patient) (s : Staff)
    (hp : lookupPatient st pid = some p)
    (hst : p.statut = StatutPatient.EN_TRANSPORT_SORTIE)
    (hfindt : st.staff.find?
      (fun t => t.patient_transporte_id = some pid) = some s)
    (hfs : findStaffById st s.id = some s) :
    ∃ st2, finaliser_transport_unite pid st = (Except.ok "Transféré", st2) ∧
      st2.current_time = st.current_time ∧
      st2.staff = updateFirst (fun t => decide (t.id = s.id)) releaseFields
        st.staff ∧
      st2.patients = updateFirst (fun kv => decide (kv.1 = pid))
        (fun kv => (kv.1, { kv.2 with
          statut := StatutPatient.SORTI })) st.patients := by
  unfold finaliser_transport_unite
  rw [hp]
  dsimp only
  rw [if_neg (by simp [hst])]
  cases hu : p.unite_cible with
  | none =>
    dsimp only
    rw [hfindt]
    unfold release_staff
    dsimp only
    rw [hfs]
    exact ⟨_, rfl, rfl, rfl, rfl⟩
  | some uc =>
    dsimp only
    cases hg : get_unite st uc with
    | none =>
      dsimp only
      rw [hfindt]
      unfold release_staff
      dsimp only
      rw [hfs]
      exact ⟨_, rfl, rfl, rfl, rfl⟩
    | some unite =>
      dsimp only
      rw [staff_setUnite]
      rw [hfindt]
      dsimp only
      unfold release_staff
      rw [findStaffById_setUnite]
      rw [hfs]
      exact ⟨_, rfl, rfl, rfl, rfl⟩

theorem finalStatut_consult (s : Staff)
    (hd : s.destination_transport = some "consultation") :
    finalStatut s = StatutPatient.EN_CONSULTATION := by
  unfold finalStatut destConsultation
  simp [hd]

theorem finalStatut_unit (s : Staff)
    (hd : ¬(s.destination_transport = some "consultation")) :
    finalStatut s = StatutPatient.SORTI := by
  unfold finalStatut destConsultation
  simp [hd]

theorem attenduStatut_consult (s : Staff)
    (hd : s.destination_transport = some "consultation") :
    attenduStatut s = StatutPatient.EN_TRANSPORT_CONSULTATION := by
  unfold attenduStatut destConsultation
  simp [hd]

theorem attenduStatut_unit (s : Staff)
    (hd : ¬(s.destination_transport = some "consultation")) :
    attenduStatut s = StatutPatient.EN_TRANSPORT_SORTIE := by
  unfold attenduStatut destConsultation
  simp [hd]

theorem tickEvent_consult (s : Staff) (pid : String)
    (hpid : s.patient_transporte_id = some pid)
    (hd : s.destination_transport = some "consultation") :
    tickEvent s = "🚑 Patient " ++ pid ++ " arrivé en consultation" := by
  unfold tickEvent destConsultation
  rw [hpid]
  simp [hd]

theorem tickEvent_unit (s : Staff) (pid : String)
    (hpid : s.patient_transporte_id = some pid)
    (hd : ¬(s.destination_transport = some "consultation")) :
    tickEvent s = "🏥 Patient " ++ pid ++ " arrivé en unité spécialisée" := by
  unfold tickEvent destConsultation
  rw [hpid]
  simp [hd]

theorem tickStep_notdue (stDyn : EmergencyState) (events : List String)
    (s : Staff) (hfs : findStaffById stDyn s.id = some s)
    (hdue : dueB stDyn.current_time s = false) :
    tickFinalizeStep (events, stDyn) s.id = (events, stDyn) := by
  unfold tickFinalizeStep
  dsimp only
  rw [hfs]
  unfold dueB at hdue
  cases hen : s.en_transport with
  | false => simp [hen]
  | true =>
    rw [hen] at hdue
    simp only [Bool.true_and] at hdue
    cases hf : s.fin_transport_prevue with
    | none => simp [hen, hf]
    | some f =>
      rw [hf] at hdue
      simp only [decide_eq_false_iff_not] at hdue
      simp [hen, hf, hdue]

theorem tickStep_due (stDyn : EmergencyState) (events : List String) (s : Staff)
    (hfs : findStaffById stDyn s.id = some s)
    (hdue : dueB stDyn.current_time s = true)
    (pid : String) (hpid : s.patient_transporte_id = some pid)
    (p : Patient) (hp : lookupPatient stDyn pid = some p)
    (hst : p.statut = attenduStatut s)
    (hfindt : stDyn.staff.find?
      (fun t => t.patient_transporte_id = some pid) = some s) :
    ∃ st2, tickFinalizeStep (events, stDyn) s.id =
        (events ++ [tickEvent s], st2) ∧
      st2.current_time = stDyn.current_time ∧
      st2.staff = updateFirst (fun t => decide (t.id = s.id)) releaseFields
        stDyn.staff ∧
      st2.patients = updateFirst (fun kv => decide (kv.1 = pid))
        (fun kv => (kv.1, { kv.2 with statut := finalStatut s }))
        stDyn.patients := by
  have hen : s.en_transport = true := by
    unfold dueB at hdue
    exact ((Bool.and_eq_true _ _).mp hdue).1
  cases hf : s.fin_transport_prevue with
  | none =>
    unfold dueB at hdue
    rw [hf, hen] at hdue
    simp at hdue
  | some f =>
    have hle : f ≤ stDyn.current_time := by
      unfold dueB at hdue
      rw [hf, hen] at hdue
      simpa using hdue
    unfold tickFinalizeStep
    dsimp only
    rw [hfs]
    dsimp only
    rw [if_pos hen, hf]
    dsimp only
    rw [if_pos hle]
    by_cases hd : s.destination_transport = some "consultation"
    · rw [if_pos hd, hpid]
      dsimp only
      obtain ⟨st2, heq, hct, hstaff, hpat⟩ :=
        finaliser_consultation_ok stDyn pid p s hp
          (by rw [hst]; exact attenduStatut_consult s hd) hfindt hfs
      rw [heq]
      dsimp only
      rw [tickEvent_consult s pid hpid hd]
      refine ⟨st2, rfl, hct, hstaff, ?_⟩
      rw [hpat, finalStatut_consult s hd]
    · rw [if_neg hd, hpid]
      dsimp only
      obtain ⟨st2, heq, hct, hstaff, hpat⟩ :=
        finaliser_unite_ok stDyn pid p s hp
          (by rw [hst]; exact attenduStatut_unit s hd) hfindt hfs
      rw [heq]
      dsimp only
      rw [tickEvent_unit s pid hpid hd]
      refine ⟨st2, rfl, hct, hstaff, ?_⟩
      rw [hpat, finalStatut_unit s hd]

theorem map_updateFirst_eq {α β : Type} {f : α → α} {g : α → β}
    (hfg : ∀ x, g (f x) = g x) (pr : α → Bool) (l : List α) :
    (updateFirst pr f l).map g = l.map g := by
  induction l with
  | nil => rfl
  | cons a as ih =>
    by_cases h : pr a = true
    · rw [updateFirst]
      simp [h, hfg]
    · rw [updateFirst]
      simp [h, ih]

theorem findStaffById_after_release (stDyn st2 : EmergencyState)
    (sid q : String)
    (hstaff : st2.staff = updateFirst (fun t => decide (t.id = sid))
      releaseFields stDyn.staff)
    (hne : q ≠ sid) :
    findStaffById st2 q = findStaffById stDyn q := by
  unfold findStaffById
  rw [hstaff]
  rw [find?_updateFirst_other (fun (t : Staff) => decide (t.id = sid))
    (fun (t : Staff) => decide (t.id = q)) releaseFields stDyn.staff
    (fun x => rfl)
    (fun x hx hq => hne (by
      simp only [decide_eq_true_eq] at hx hq
      rw [← hq, ← hx]))]

theorem findStaffById_after_release_self (stDyn st2 : EmergencyState)
    (sid : String) (s : Staff)
    (hstaff : st2.staff = updateFirst (fun t => decide (t.id = sid))
      releaseFields stDyn.staff)
    (hfs : findStaffById stDyn sid = some s) :
    findStaffById st2 sid = some (releaseFields s) := by
  unfold findStaffById at hfs ⊢
  rw [hstaff, find?_updateFirst_self (fun (x : Staff) => decide (x.id = sid))
    releaseFields stDyn.staff (fun x hx => hx), hfs]
  rfl

theorem lookupPatient_after_final_self (stDyn st2 : EmergencyState)
    (pid : String) (g : Patient → Patient)
    (hpat : st2.patients = updateFirst (fun kv => decide (kv.1 = pid))
      (fun kv => (kv.1, g kv.2)) stDyn.patients)
    (p : Patient) (hp : lookupPatient stDyn pid = some p) :
    lookupPatient st2 pid = some (g p) := by
  unfold lookupPatient
  rw [hpat, find?_updateFirst_self
    (fun (kv : String × Patient) => decide (kv.1 = pid))
    (fun kv => (kv.1, g kv.2)) stDyn.patients (fun x hx => hx),
    lookupPatient_find stDyn pid p hp]
  rfl

theorem lookupPatient_after_final_other (stDyn st2 : EmergencyState)
    (pid q : String) (g : Patient → Patient)
    (hpat : st2.patients = updateFirst (fun kv => decide (kv.1 = pid))
      (fun kv => (kv.1, g kv.2)) stDyn.patients)
    (hne : q ≠ pid) :
    lookupPatient st2 q = lookupPatient stDyn q := by
  unfold lookupPatient
  rw [hpat, find?_updateFirst_other
    (fun (kv : String × Patient) => decide (kv.1 = pid))
    (fun (kv : String × Patient) => decide (kv.1 = q))
    (fun kv => (kv.1, g kv.2)) stDyn.patients (fun x => rfl)
    (fun x hx hq => hne (by
      simp only [decide_eq_true_eq] at hx hq
      rw [← hq, ← hx]))]

theorem tick_fold_spec (now : Nat) (pend : List Staff) :
    ∀ (stDyn : EmergencyState) (events : List String),
    stDyn.current_time = now →
    (∀ s ∈ pend, findStaffById stDyn s.id = some s) →
    (pend.map Staff.id).Nodup →
    (stDyn.staff.map Staff.id).Nodup →
    (∀ s ∈ pend, dueB now s = true →
      ∃ pid, s.patient_transporte_id = some pid ∧
        ∃ p, lookupPatient stDyn pid = some p ∧
          p.statut = attenduStatut s) →
    (∀ s ∈ pend, dueB now s = true →
      ∀ pid, s.patient_transporte_id = some pid →
        ∀ t ∈ stDyn.staff, t.patient_transporte_id = some pid →
          t.id = s.id) →
    ((pend.map Staff.id).foldl tickFinalizeStep
        (events, stDyn)).2.current_time = now ∧
    ((pend.map Staff.id).foldl tickFinalizeStep (events, stDyn)).1
      = events ++ (pend.filter (dueB now)).map tickEvent ∧
    (∀ sid, sid ∉ pend.map Staff.id →
      findStaffById ((pend.map Staff.id).foldl tickFinalizeStep
        (events, stDyn)).2 sid = findStaffById stDyn sid) ∧
    (∀ q, (∀ s ∈ pend, dueB now s = true →
        s.patient_transporte_id ≠ some q) →
      lookupPatient ((pend.map Staff.id).foldl tickFinalizeStep
        (events, stDyn)).2 q = lookupPatient stDyn q) ∧
    (∀ s ∈ pend, dueB now s = true →
      findStaffById ((pend.map Staff.id).foldl tickFinalizeStep
        (events, stDyn)).2 s.id = some (releaseFields s) ∧
      ∀ pid, s.patient_transporte_id = some pid →
        ∃ p, lookupPatient stDyn pid = some p ∧
          lookupPatient ((pend.map Staff.id).foldl tickFinalizeStep
            (events, stDyn)).2 pid =
            some { p with statut := finalStatut s }) := by
  induction pend with
  | nil =>
    intro stDyn events hnow h1 h2 hnd h3 h4
    exact ⟨hnow, by simp, fun sid _ => rfl, fun q _ => rfl, by simp⟩
  | cons s rest ih =>
    intro stDyn events hnow h1 h2 hnd h3 h4
    have hfs : findStaffById stDyn s.id = some s :=
      h1 s (List.mem_cons_self s rest)
    have hsmem : s ∈ stDyn.staff := (findStaffById_find stDyn s.id s hfs).2
    have hrestids : s.id ∉ rest.map Staff.id := (List.nodup_cons.mp h2).1
    rw [List.map_cons, List.foldl_cons]
    by_cases hdue : dueB now s = true
    · obtain ⟨pid, hpid, p, hp, hst⟩ := h3 s (List.mem_cons_self s rest) hdue
      have huniqv : ∀ t ∈ stDyn.staff,
          (fun t => decide (t.patient_transporte_id = some pid)) t = true →
          t = s := by
        intro t ht hq
        simp only [decide_eq_true_eq] at hq
        have hid := h4 s (List.mem_cons_self s rest) hdue pid hpid t ht hq
        exact List.inj_on_of_nodup_map hnd ht hsmem hid
      have hfindt : stDyn.staff.find?
          (fun t => t.patient_transporte_id = some pid) = some s :=
        find?_eq_of_unique _ _ s hsmem (by simp [hpid]) huniqv
      obtain ⟨st2, heq, hct, hstaff, hpat⟩ :=
        tickStep_due stDyn events s hfs (by rw [hnow]; exact hdue)
          pid hpid p hp hst hfindt
      rw [heq]
      have hids2 : st2.staff.map Staff.id = stDyn.staff.map Staff.id := by
        rw [hstaff]
        exact @map_updateFirst_eq Staff String releaseFields Staff.id
          (fun x => rfl) _ _
      have hnd2 : (st2.staff.map Staff.id).Nodup := by
        rw [hids2]
        exact hnd
      have hnow2 : st2.current_time = now := by rw [hct, hnow]
      have hpidne : ∀ s2 ∈ rest, dueB now s2 = true →
          ∀ pid2, s2.patient_transporte_id = some pid2 → pid2 ≠ pid := by
        intro s2 hs2 hdue2 pid2 hpid2 hcontra
        subst hcontra
        have hs2mem : s2 ∈ stDyn.staff :=
          (findStaffById_find stDyn s2.id s2
            (h1 s2 (List.mem_cons_of_mem s hs2))).2
        have hid := h4 s (List.mem_cons_self s rest) hdue pid2 hpid
          s2 hs2mem hpid2
        apply hrestids
        rw [← hid]
        exact List.mem_map_of_mem Staff.id hs2
      have h1b : ∀ s2 ∈ rest, findStaffById st2 s2.id = some s2 := by
        intro s2 hs2
        have hne : s2.id ≠ s.id := fun hc =>
          hrestids (hc ▸ List.mem_map_of_mem Staff.id hs2)
        rw [findStaffById_after_release stDyn st2 s.id s2.id hstaff hne]
        exact h1 s2 (List.mem_cons_of_mem s hs2)
      have h3b : ∀ s2 ∈ rest, dueB now s2 = true →
          ∃ pid2, s2.patient_transporte_id = some pid2 ∧
            ∃ p2, lookupPatient st2 pid2 = some p2 ∧
              p2.statut = attenduStatut s2 := by
        intro s2 hs2 hdue2
        obtain ⟨pid2, hpid2, p2, hp2, hst2⟩ :=
          h3 s2 (List.mem_cons_of_mem s hs2) hdue2
        refine ⟨pid2, hpid2, p2, ?_, hst2⟩
        rw [lookupPatient_after_final_other stDyn st2 pid pid2
          (fun q => { q with statut := finalStatut s }) hpat
          (hpidne s2 hs2 hdue2 pid2 hpid2)]
        exact hp2
      have h4b : ∀ s2 ∈ rest, dueB now s2 = true →
          ∀ pid2, s2.patient_transporte_id = some pid2 →
            ∀ t ∈ st2.staff, t.patient_transporte_id = some pid2 →
              t.id = s2.id := by
        intro s2 hs2 hdue2 pid2 hpid2 t ht htp
        rcases mem_updateFirst _ _ _ t (hstaff ▸ ht) with hmem | ⟨y, hy, hrel⟩
        · exact h4 s2 (List.mem_cons_of_mem s hs2) hdue2 pid2 hpid2 t hmem htp
        · subst hrel
          exact absurd htp (by simp [releaseFields])
      obtain ⟨ihc1, ihc2, ihc3, ihc4, ihc5⟩ :=
        ih st2 (events ++ [tickEvent s]) hnow2 h1b
          (List.nodup_cons.mp h2).2 hnd2 h3b h4b
      refine ⟨ihc1, ?_, ?_, ?_, ?_⟩
      · rw [ihc2, List.filter_cons]
        simp only [hdue, if_true, List.map_cons, List.append_assoc,
          List.singleton_append]
      · intro sid hsid
        have hsid2 : sid ∉ rest.map Staff.id := fun hc =>
          hsid (List.mem_cons_of_mem _ hc)
        have hsidne : sid ≠ s.id := fun hc =>
          hsid (hc ▸ List.mem_cons_self _ _)
        rw [ihc3 sid hsid2]
        exact findStaffById_after_release stDyn st2 s.id sid hstaff hsidne
      · intro q hq
        have hqne : q ≠ pid := by
          intro hc
          subst hc
          exact (hq s (List.mem_cons_self s rest) hdue) hpid
        rw [ihc4 q (fun s2 hs2 hdue2 =>
          hq s2 (List.mem_cons_of_mem s hs2) hdue2)]
        exact lookupPatient_after_final_other stDyn st2 pid q
          (fun x => { x with statut := finalStatut s }) hpat hqne
      · intro s2 hs2 hdue2
        rcases List.mem_cons.mp hs2 with hhead | hmem
        · subst hhead
          constructor
          · rw [ihc3 s2.id hrestids]
            exact findStaffById_after_release_self stDyn st2 s2.id s2
              hstaff hfs
          · intro pid0 hpid0
            have hpe : pid0 = pid := by
              have hsp := hpid0.symm.trans hpid
              injection hsp
            subst hpe
            refine ⟨p, hp, ?_⟩
            rw [ihc4 pid0 (fun s3 hs3 hdue3 hc =>
              (hpidne s3 hs3 hdue3 pid0 hc) rfl)]
            exact lookupPatient_after_final_self stDyn st2 pid0
              (fun x => { x with statut := finalStatut s2 }) hpat p hp
        · obtain ⟨hfind5, hpat5⟩ := ihc5 s2 hmem hdue2
          refine ⟨hfind5, ?_⟩
          intro pid2 hpid2
          obtain ⟨p2, hp2st2, hres⟩ := hpat5 pid2 hpid2
          refine ⟨p2, ?_, hres⟩
          rw [← lookupPatient_after_final_other stDyn st2 pid pid2
            (fun x => { x with statut := finalStatut s }) hpat
            (hpidne s2 hmem hdue2 pid2 hpid2)]
          exact hp2st2
    · have hstep := tickStep_notdue stDyn events s hfs
        (by rw [hnow]; simpa using hdue)
      rw [hstep]
      obtain ⟨ihc1, ihc2, ihc3, ihc4, ihc5⟩ :=
        ih stDyn events hnow
          (fun s2 hs2 => h1 s2 (List.mem_cons_of_mem s hs2))
          (List.nodup_cons.mp h2).2 hnd
          (fun s2 hs2 => h3 s2 (List.mem_cons_of_mem s hs2))
          (fun s2 hs2 => h4 s2 (List.mem_cons_of_mem s hs2))
      refine ⟨ihc1, ?_, ?_, ?_, ?_⟩
      · rw [ihc2, List.filter_cons]
        simp only [hdue, if_false, Bool.false_eq_true, ite_false]
      · intro sid hsid
        exact ihc3 sid (fun hc => hsid (List.mem_cons_of_mem _ hc))
      · intro q hq
        exact ihc4 q (fun s2 hs2 => hq s2 (List.mem_cons_of_mem s hs2))
      · intro s2 hs2 hdue2
        rcases List.mem_cons.mp hs2 with hhead | hmem
        · rw [hhead] at hdue2
          exact absurd hdue2 hdue
        · exact ihc5 s2 hmem hdue2

/-- C5 counterexample: the claim fails on a reachable state.  Starting from
the initial state, `c5SetupTrace` dispatches both aides with the same
patient `P7` (the start operations never check patient status).  The call
`tick 45` advances the clock to 45, at which both transports are due, yet
only the first transporter in roster order is finalized: the second,
`Aide Soignant(e) B`, is still in transit after the call with its expected
arrival (45) at or before the new clock, because its finalize call failed —
the patient had already been discharged by the first transporter. -/
theorem tick_due_not_finalized :
    (findStaffById c5SetupState "Aide Soignant(e) B").map
      (fun s => (s.en_transport, s.fin_transport_prevue,
        s.patient_transporte_id)) = some (true, some 45, some "P7") ∧
    (tick 45 c5SetupState).2.current_time = 45 ∧
    (findStaffById (tick 45 c5SetupState).2 "Aide Soignant(e) B").map
      (fun s => (s.en_transport, s.fin_transport_prevue)) =
      some (true, some 45) ∧
    (lookupPatient (tick 45 c5SetupState).2 "P7").map Patient.statut =
      some StatutPatient.SORTI := by
  decide

/-- C5 amended: under coherent transport bookkeeping (`TickCoherent`:
distinct staff ids, every due staff member transports an existing patient
whose status matches the transport kind, and no two staff members transport
the same patient), `tick m` advances the simulated clock by exactly `m`,
its event list holds exactly one entry per due staff member in
staff-roster order, and every staff member in transit with an expected
arrival at or before the new clock has their transport finalized — they
are released and their patient reaches `EN_CONSULTATION` (consultation
transports) or `SORTI` (unit transports).  The coherence condition cannot
be dropped: see the counterexample `tick_due_not_finalized`. -/
theorem tick_spec (st : EmergencyState) (m : Nat)
    (hco : TickCoherent st (st.current_time + m)) :
    (tick m st).2.current_time = st.current_time + m ∧
    (tick m st).1 =
      (st.staff.filter (dueB (st.current_time + m))).map tickEvent ∧
    ∀ s ∈ st.staff, dueB (st.current_time + m) s = true →
      findStaffById (tick m st).2 s.id = some (releaseFields s) ∧
      ∀ pid, s.patient_transporte_id = some pid →
        ∃ p, lookupPatient st pid = some p ∧
          lookupPatient (tick m st).2 pid =
            some { p with statut := finalStatut s } := by
  obtain ⟨hnodup, hco2⟩ := hco
  have h1 : ∀ s ∈ st.staff,
      findStaffById { st with current_time := st.current_time + m } s.id
        = some s := by
    intro s hs
    exact find?_eq_of_unique _ _ s hs (by simp)
      (fun y hy hq => List.inj_on_of_nodup_map hnodup hy hs
        (by simpa using hq))
  have h3 : ∀ s ∈ st.staff, dueB (st.current_time + m) s = true →
      ∃ pid, s.patient_transporte_id = some pid ∧
        ∃ p, lookupPatient { st with current_time := st.current_time + m }
            pid = some p ∧ p.statut = attenduStatut s := by
    intro s hs hd
    obtain ⟨pid, hpid, ⟨p, hp, hstp⟩, _⟩ := hco2 s hs hd
    exact ⟨pid, hpid, p, hp, hstp⟩
  have h4 : ∀ s ∈ st.staff, dueB (st.current_time + m) s = true →
      ∀ pid, s.patient_transporte_id = some pid →
        ∀ t ∈ ({ st with current_time := st.current_time + m } :
            EmergencyState).staff,
          t.patient_transporte_id = some pid → t.id = s.id := by
    intro s hs hd pid hpid t ht htp
    obtain ⟨pid2, hpid2, _, huniq⟩ := hco2 s hs hd
    have hpe : pid2 = pid := by
      have hsp := hpid2.symm.trans hpid
      injection hsp
    subst hpe
    exact huniq t ht htp
  have hfold := tick_fold_spec (st.current_time + m) st.staff
    { st with current_time := st.current_time + m } [] rfl h1
    hnodup hnodup h3 h4
  exact ⟨hfold.1, hfold.2.1, hfold.2.2.2.2⟩

/-- Witness for C5: the in-transit aide of `c5State` is finalized by
`tick 5`. -/
theorem tick_spec_witness :
    (tick 5 c5State).2.current_time = c5State.current_time + 5 ∧
    (tick 5 c5State).1 =
      (c5State.staff.filter (dueB (c5State.current_time + 5))).map
        tickEvent ∧
    ∀ s ∈ c5State.staff, dueB (c5State.current_time + 5) s = true →
      findStaffById (tick 5 c5State).2 s.id = some (releaseFields s) ∧
      ∀ pid, s.patient_transporte_id = some pid →
        ∃ p, lookupPatient c5State pid = some p ∧
          lookupPatient (tick 5 c5State).2 pid =
            some { p with statut := finalStatut s } :=
  tick_spec c5State 5 (by
    constructor
    · decide
    · intro s hs hdue
      have hlist : s = mkIdleStaff "Medecin" TypeStaff.MEDECIN ∨
          s = mkIdleStaff "Infirmier(ère) Triage" TypeStaff.INFIRMIERE_FIXE ∨
          s = mkIdleStaff "Infirmier(ère) B" TypeStaff.INFIRMIERE_MOBILE ∨
          s = mkIdleStaff "Infirmier(ère) C" TypeStaff.INFIRMIERE_MOBILE ∨
          s = aideEnTransport ∨
          s = mkIdleStaff "Aide Soignant(e) B" TypeStaff.AIDE_SOIGNANT := by
        simpa [c5State, List.mem_cons] using hs
      rcases hlist with rfl | rfl | rfl | rfl | rfl | rfl
      · exact absurd hdue (by decide)
      · exact absurd hdue (by decide)
      · exact absurd hdue (by decide)
      · exact absurd hdue (by decide)
      · exact ⟨"PT", by decide,
          ⟨mkPatient "PT" .JAUNE .EN_TRANSPORT_CONSULTATION 0 none none,
            by decide, by decide⟩,
          by decide⟩
      · exact absurd hdue (by decide))
